import Mathlib

/-!
# Verification of the dragon-codex chunking and embedding pipeline

This file gives a shallow embedding, in Lean 4, of the core chunking and
embedding-pipeline code of the repository:

* `src/utils/util_chunking_functions.py` (namespace `Chunking`): the
  deterministic size-bounded text chunker (`split_oversized_paragraph`,
  `group_paragraphs_into_chunks`, `split_paragraph_into_chunks`).
* `src/ingestion/books/pass_08_book_chunker.py` (namespace `Book`): the
  text-splitting part of `BookChunker.chunk_chapter`.
* `src/utils/util_embedding.py` (namespace `Embedding`):
  `VectorStoreManager.embed_batch` and `embed_batch_parallel`, with the
  external embedding service modelled as a function parameter.
* `src/retrieval/pass_17_embed_all_chunks.py` (namespace `Pipeline`): the
  `ImprovedCheckpoint` store and the `embed_file_resumable` driver, modelled
  as a small-step trace of persisted disk states.

Python strings are modelled as `List Char`; Python `int` results that can be
negative (`str.rfind`, the `max_tokens = -1` initialiser) are modelled as
`Int`.  Timestamps (`started_at`, `last_updated`) and wall-clock durations
are not modelled; in the pipeline no duration is ever persisted (see the
`Pipeline` namespace header).
-/

namespace Chunking

/-- Python's whitespace class (`\s` / `str.strip` / `str.isspace`) restricted
to the ASCII range: space, tab, newline, carriage return, vertical tab and
form feed. -/
def pyIsSpace (c : Char) : Bool :=
  c == ' ' || c == '\t' || c == '\n' || c == '\r' || c == '\x0b' || c == '\x0c'

/-- Python `str.strip()` on the character-list representation: drop leading
and trailing whitespace. -/
def pyStrip (l : List Char) : List Char :=
  ((l.dropWhile pyIsSpace).reverse.dropWhile pyIsSpace).reverse

/-- The sentence-ending punctuation class `[.!?]` of the regex
`([.!?]\s+)` in `split_oversized_paragraph`. -/
def isSentencePunct (c : Char) : Bool :=
  c == '.' || c == '!' || c == '?'

/-- Whether a string starts with a whitespace character (the lookahead used
to detect a `[.!?]\s+` match). -/
def headIsSpace : List Char → Bool
  | d :: _ => pyIsSpace d
  | [] => false

def TARGET_CHARS : Nat := 1536 * 4

def MAX_CHARS : Nat := 1920 * 4

def OVERLAP_CHARS : Nat := 307 * 4

/-! For the index-driven sliding-window loop, a Python string is modelled by
its length `n` together with its character-at function `f : Nat → Char`
(only positions `< n` are ever consulted). -/

/-- Length of the whitespace run of `f` starting at position `p`, scanning
upward for at most `steps` positions. -/
def countWsUp (f : Nat → Char) : Nat → Nat → Nat
  | _, 0 => 0
  | p, steps + 1 => if pyIsSpace (f p) then countWsUp f (p + 1) steps + 1 else 0

/-- Length of the whitespace run of `f` ending at position `p`, scanning
downward for at most `steps` positions. -/
def countWsDown (f : Nat → Char) : Nat → Nat → Nat
  | _, 0 => 0
  | p, steps + 1 =>
    if pyIsSpace (f p) then
      match p with
      | 0 => 1
      | q + 1 => countWsDown f q steps + 1
    else 0

/-- `len(text[start:endPos].strip())`: the slice length minus its leading
and trailing whitespace runs (`0` if the slice is all whitespace). -/
def stripLen (f : Nat → Char) (start endPos : Nat) : Nat :=
  let full := endPos - start
  let lead := countWsUp f start full
  if full ≤ lead then 0
  else full - lead - countWsDown f (endPos - 1) (full - lead)

/-- Downward scan for the last occurrence of the two-character pattern `ab`
starting at position `p`, trying at most `steps` candidate positions. -/
def rfind2Down (f : Nat → Char) (a b : Char) (p : Nat) : Nat → Int
  | 0 => -1
  | steps + 1 =>
    if f p == a && f (p + 1) == b then (p : Int)
    else
      match p with
      | 0 => -1
      | q + 1 => rfind2Down f a b q steps

/-- Python `text.rfind(sub, lo, hi)` for a two-character pattern `sub = ab`:
the largest `p` with `lo ≤ p`, `p + 2 ≤ hi`, `text[p] = a` and
`text[p+1] = b`, or `-1` when there is none. -/
def pyRfind2 (f : Nat → Char) (a b : Char) (lo hi : Nat) : Int :=
  if lo + 2 ≤ hi then rfind2Down f a b (hi - 2) (hi - 1 - lo) else -1

/-- Downward scan for the last occurrence of the character `a`. -/
def rfind1Down (f : Nat → Char) (a : Char) (p : Nat) : Nat → Int
  | 0 => -1
  | steps + 1 =>
    if f p == a then (p : Int)
    else
      match p with
      | 0 => -1
      | q + 1 => rfind1Down f a q steps

/-- Python `text.rfind(sub, lo, hi)` for a single-character pattern. -/
def pyRfind1 (f : Nat → Char) (a : Char) (lo hi : Nat) : Int :=
  if lo + 1 ≤ hi then rfind1Down f a (hi - 1) (hi - lo) else -1

/-- One iteration of the `while start < len(paragraph)` loop of
`split_paragraph_into_chunks` (`util_chunking_functions.py` lines 227-264),
on the paragraph with length `n` and character-at function `f`, returning
the value of `start` after the iteration: `none` when
`end >= len(paragraph)` (the loop appends the remainder and breaks), and
`some start'` otherwise.  All comparisons involving `rfind` results and the
progress guard are over Python integers, hence `Int`. -/
def split_paragraph_step (f : Nat → Char) (n start : Nat) : Option Int :=
  let e0 := start + TARGET_CHARS
  if n ≤ e0 then none
  else
    let searchEnd := min (e0 + 200) n
    let sentenceEnd :=
      max (max (pyRfind2 f '.' ' ' start searchEnd) (pyRfind2 f '!' ' ' start searchEnd))
        (pyRfind2 f '?' ' ' start searchEnd)
    let endPos : Nat :=
      if (start : Int) < sentenceEnd then sentenceEnd.toNat + 1
      else
        let spacePos := pyRfind1 f ' ' start (min (start + MAX_CHARS) n)
        if (start : Int) < spacePos then spacePos.toNat
        else min (start + MAX_CHARS) n
    let ns : Int := (endPos : Int) - OVERLAP_CHARS
    some (if ns ≤ (stripLen f start endPos : Int) - OVERLAP_CHARS then (endPos : Int) else ns)

/-- An 11261-character paragraph on which the sliding-window loop stops
making progress: all `'a'`, except for sentence boundaries `". "` at
positions 5115-5116 and 6343-6344. -/
def c4ParaAt : Nat → Char := fun i =>
  if i == 5115 || i == 6343 then '.'
  else if i == 5116 || i == 6344 then ' '
  else 'a'

/-- Length of the `c4ParaAt` paragraph. -/
def c4ParaLen : Nat := 11261

end Chunking

namespace Book

/-! Shallow embedding of the text-splitting part of
`BookChunker.chunk_chapter` (`pass_08_book_chunker.py`, lines 85-166).
Metadata assembly and character-mention extraction (lines 168-195) only wrap
each produced text in a record and are not modelled; the claims concern the
produced chunk texts.  Constants from `BookChunker.__init__` (lines 29-37):
`TARGET_TOKENS = 1000`, `MAX_TOKENS = 2000`, `OVERLAP_TOKENS = 100`,
`CHARS_PER_TOKEN = 4`. -/

def TARGET_CHARS : Nat := 1000 * 4

def MAX_CHARS : Nat := 2000 * 4

def OVERLAP_CHARS : Nat := 100 * 4

/-- Leftmost match of `\n\s*\n+` (the paragraph separator of
`split_into_paragraphs`, line 78): a newline followed by a whitespace run
that contains at least one further newline.  With greedy backtracking, the
match extends through the last newline of that whitespace run.  Returns
`(before, separator, after)` or `none`. -/
def findParaSep : List Char → Option (List Char × List Char × List Char)
  | [] => none
  | c :: rest =>
    if c == '\n' && (rest.takeWhile Chunking.pyIsSpace).contains '\n' then
      let run := rest.takeWhile Chunking.pyIsSpace
      let keep := run.length - (run.reverse.takeWhile (fun d => !(d == '\n'))).length
      some ([], c :: run.take keep, run.drop keep ++ rest.dropWhile Chunking.pyIsSpace)
    else
      match findParaSep rest with
      | none => none
      | some (b, s, a) => some (c :: b, s, a)

/-- `re.split(r'\n\s*\n+', text)` (separators dropped), with explicit fuel;
since every separator is non-empty, fuel equal to the text length is always
sufficient. -/
def paraPiecesAux (fuel : Nat) (l : List Char) : List (List Char) :=
  match fuel with
  | 0 => [l]
  | fuel + 1 =>
    match findParaSep l with
    | none => [l]
    | some (b, _s, a) => b :: paraPiecesAux fuel a

/-- `BookChunker.split_into_paragraphs` (lines 67-83): split on blank-line
separators, strip each piece, and drop the pieces that are empty after
stripping. -/
def split_into_paragraphs (text : List Char) : List (List Char) :=
  ((paraPiecesAux text.length text).map Chunking.pyStrip).filter (fun p => p ≠ [])

/-- Leftmost match of `([.!?]+\s+)` (the sentence separator of
`chunk_chapter`, line 127): a maximal run of sentence punctuation followed
by a whitespace run.  Returns `(before, separator, after)` or `none`. -/
def findPunctRunSep : List Char → Option (List Char × List Char × List Char)
  | [] => none
  | c :: rest =>
    if Chunking.isSentencePunct c
        && Chunking.headIsSpace (rest.dropWhile Chunking.isSentencePunct) then
      let after := rest.dropWhile Chunking.isSentencePunct
      some ([], (c :: rest.takeWhile Chunking.isSentencePunct)
          ++ after.takeWhile Chunking.pyIsSpace,
        after.dropWhile Chunking.pyIsSpace)
    else
      match findPunctRunSep rest with
      | none => none
      | some (b, s, a) => some (c :: b, s, a)

/-- `re.split(r'([.!?]+\s+)', paragraph)` with captures kept: the
alternating list of pieces and separators, with explicit fuel (fuel equal to
the length is always sufficient, as every separator is non-empty). -/
def sentPiecesAux (fuel : Nat) (l : List Char) : List (List Char) :=
  match fuel with
  | 0 => [l]
  | fuel + 1 =>
    match findPunctRunSep l with
    | none => [l]
    | some (b, s, a) => b :: s :: sentPiecesAux fuel a

/-- Python `text[-n:]` (for `n ≥ 1`): the last `min n length` characters. -/
def takeLast (n : Nat) (l : List Char) : List Char :=
  l.drop (l.length - n)

/-- Python `"\n\n".join(parts)`. -/
def joinNN : List (List Char) → List Char
  | [] => []
  | [x] => x
  | x :: rest => x ++ '\n' :: '\n' :: joinNN rest

/-- The inner sentence loop of `chunk_chapter` for an oversized paragraph
(lines 127-146), processing the remaining alternating pieces/separators with
accumulated `(chunks, temp_chunk, temp_length)`, including the final flush. -/
def chunkLargePara : List (List Char) → List (List Char) → List (List Char) → Nat →
    List (List Char)
  | [], chunks, temp, _ => chunks ++ (if temp = [] then [] else [temp.flatten])
  | sentence :: rest, chunks, temp, tempLen =>
    if Chunking.pyStrip sentence = [] then
      chunkLargePara rest chunks temp tempLen
    else if MAX_CHARS < tempLen + sentence.length ∧ temp ≠ [] then
      let flushed := temp.flatten
      let overlap := takeLast OVERLAP_CHARS flushed
      chunkLargePara rest (chunks ++ [flushed]) [overlap, sentence]
        (overlap.length + sentence.length)
    else
      chunkLargePara rest chunks (temp ++ [sentence]) (tempLen + sentence.length)

/-- The outer paragraph loop of `chunk_chapter` (lines 115-166), processing
the remaining paragraphs with accumulated
`(chunks, current_chunk_text, current_chunk_length)`, including the final
flush.  Note: `current_chunk_length` is the sum of paragraph lengths and does
not count the `"\n\n"` separators added on join, exactly as in the source. -/
def chunkParas : List (List Char) → List (List Char) → List (List Char) → Nat →
    List (List Char)
  | [], chunks, cur, _ => chunks ++ (if cur = [] then [] else [joinNN cur])
  | para :: rest, chunks, cur, curLen =>
    if MAX_CHARS < para.length then
      let chunks1 := chunks ++ (if cur = [] then [] else [joinNN cur])
      let sentences := sentPiecesAux para.length para
      chunkParas rest (chunkLargePara sentences chunks1 [] 0) [] 0
    else if TARGET_CHARS < curLen + para.length ∧ cur ≠ [] then
      let flushed := joinNN cur
      let overlap := takeLast OVERLAP_CHARS flushed
      chunkParas rest (chunks ++ [flushed]) [overlap, para]
        (overlap.length + para.length)
    else
      chunkParas rest chunks (cur ++ [para]) (curLen + para.length)

/-- The chunk texts produced by `BookChunker.chunk_chapter` for a chapter
whose `content` field is `content` (lines 97-166). -/
def chunk_chapter_texts (content : List Char) : List (List Char) :=
  if content = [] then []
  else
    let paragraphs := split_into_paragraphs content
    if paragraphs = [] then []
    else chunkParas paragraphs [] [] 0

end Book

namespace Embedding

/-! Shallow embedding of `VectorStoreManager.embed_batch` (lines 133-208)
and `embed_batch_parallel` (lines 210-282) of `src/utils/util_embedding.py`.
The external embedding service (`POST {url}/api/embed`) is modelled as a
function `svc : List String → List V × Nat` returning, for one call carrying
a batch of input texts, the response's `embeddings` list (vectors are opaque
values of type `V`) and its `prompt_eval_count` field.  Wall-clock
`total_time` is not modelled.  `embed_batch_parallel` collects its futures
in submission order (`for future in futures`), so its result merge is the
same in-order fold as the sequential variant. -/

/-- Recursion core of `textChunks`, with explicit fuel (fuel equal to the
list length suffices whenever `B ≥ 1`). -/
def textChunksAux (B : Nat) : Nat → List String → List (List String)
  | _, [] => []
  | 0, _ :: _ => []
  | fuel + 1, l => l.take B :: textChunksAux B fuel (l.drop B)

/-- The batches `texts[i:i+B]` for `i in range(0, len(texts), B)`.  (For
`B = 0` Python raises `ValueError`; all theorems assume `0 < B`.) -/
def textChunks (B : Nat) (texts : List String) : List (List String) :=
  textChunksAux B texts.length texts

/-- Result of `embed_batch`: the returned `(all_embeddings, avg_tokens,
max_tokens)` triple (wall-clock time omitted). -/
structure BatchResult (V : Type) where
  embeddings : List V
  avg_tokens : ℚ
  max_tokens : Int
deriving DecidableEq

/-- Loop body of `embed_batch` (lines 173-204): state is
`(all_embeddings, total_tokens, total_items, avg_tokens)`, where
`avg_tokens` is `none` until its first assignment (reading it while still
`none` is Python's `UnboundLocalError`). -/
def embedBatchStep (svc : List String → List V × Nat)
    (st : List V × Nat × Nat × Option ℚ) (batch : List String) :
    List V × Nat × Nat × Option ℚ :=
  let data := svc batch
  let totTok := st.2.1 + data.2
  let totItems := st.2.2.1 + data.1.length
  let avg : ℚ := if totItems ≠ 0 then (totTok : ℚ) / (totItems : ℚ) else 0
  (st.1 ++ data.1, totTok, totItems, some avg)

/-- `VectorStoreManager.embed_batch(texts, batch_size)` (lines 133-208):
`none` models the `UnboundLocalError` raised when `texts` is empty (the
returned `avg_tokens` is only assigned inside the loop); note that the
returned `max_tokens` is the initialiser `-1`, never updated. -/
def embed_batch (svc : List String → List V × Nat) (texts : List String)
    (batch_size : Nat) : Option (BatchResult V) :=
  match (textChunks batch_size texts).foldl (embedBatchStep svc) ([], 0, 0, none) with
  | (allE, _, _, some avg) => some ⟨allE, avg, -1⟩
  | (_, _, _, none) => none

/-- Loop body of `embed_batch_parallel` (lines 268-276): state is
`(all_embeddings, avg_tokens)`; the code keeps the *maximum* per-call token
count in its `avg_tokens` variable. -/
def embedParStep (svc : List String → List V × Nat)
    (st : List V × Nat) (batch : List String) : List V × Nat :=
  let data := svc batch
  (st.1 ++ data.1, if st.2 < data.2 then data.2 else st.2)

/-- `VectorStoreManager.embed_batch_parallel(texts, batch_size, max_workers)`
(lines 210-282); futures are iterated in submission order, so the merge is
an in-order fold over the batches.  `max_workers` does not affect the
result and is omitted. -/
def embed_batch_parallel (svc : List String → List V × Nat)
    (texts : List String) (batch_size : Nat) : BatchResult V :=
  let res := (textChunks batch_size texts).foldl (embedParStep svc) ([], 0)
  ⟨res.1, (res.2 : ℚ), -1⟩

/-- A concrete embedding service for witnesses and counterexamples: one unit
vector per input text, and a constant `prompt_eval_count` of `7` per call. -/
def svcConst : List String → List Unit × Nat :=
  fun b => (b.map (fun _ => ()), 7)

end Embedding

namespace Pipeline

/-! Shallow embedding of `ImprovedCheckpoint` (lines 37-124) and
`embed_file_resumable` (lines 150-313) of
`src/retrieval/pass_17_embed_all_chunks.py`.

The run of `embed_file_resumable` on one source file is modelled as the
sequence of *persisted disk states* it produces (every `save_checkpoint`
and every completed write to the temporary or permanent embeddings file
appends one state), together with the service calls it issues and its
outcome: a normal return, or termination by an uncaught exception.

The central fact of this model: `serialize_object` is defined as
`def serialize_object(data, output_file, log: False)`
(`src/utils/util_files_functions.py` line 20).  `log: False` is an
*annotation*, not a default value, so `log` is a required third positional
parameter — and both call sites in `embed_file_resumable` (lines 276 and
295) pass only two arguments.  Line 276, the per-batch temporary-file
write, runs right after the `try/except` block that ends at line 272, so
on every batch iteration of every run the first service call succeeds and
then the two-argument `serialize_object` call raises `TypeError` before
any file is written; the exception propagates out of the function.  Hence
the temporary file is never written, `update_progress` — whose only call
site is line 280 — never executes, and the permanent-output /
temp-removal / `complete_file` epilogue (lines 295-301) is unreachable
whenever at least one chunk remains.  The only persisted state of such a
run is the `start_file` checkpoint save (line 208).

Timestamps (`started_at`, `last_updated`) and wall-clock durations are not
modelled; no duration is ever persisted, since `update_progress` is dead
code. -/

/-- The checkpoint dictionary (`_load_checkpoint`, lines 45-59), minus the
two timestamp fields. -/
structure CkptState where
  currentFile : Option String
  currentFileProgress : Nat
  completedFiles : List String
  totalChunksEmbedded : Nat
  totalTimeSeconds : Nat
deriving DecidableEq

/-- A freshly created checkpoint (no checkpoint file on disk, lines 50-59). -/
def freshCkpt : CkptState :=
  { currentFile := none, currentFileProgress := 0, completedFiles := []
    totalChunksEmbedded := 0, totalTimeSeconds := 0 }

/-- `ImprovedCheckpoint.start_file` (lines 69-80). -/
def start_file (c : CkptState) (fn : String) : CkptState :=
  if c.currentFile = some fn then c
  else { c with currentFile := some fn, currentFileProgress := 0 }

/-- `ImprovedCheckpoint.update_progress` (lines 82-87): note that
`total_chunks_embedded` and `total_time_seconds` are *overwritten* with the
per-invocation values, not accumulated.  Its only call site
(`pass_17_embed_all_chunks.py` line 280) is unreachable: line 276 raises
`TypeError` earlier in every batch iteration. -/
def update_progress (c : CkptState) (chunks_completed elapsed_seconds : Nat) :
    CkptState :=
  { c with currentFileProgress := chunks_completed
           totalChunksEmbedded := chunks_completed
           totalTimeSeconds := elapsed_seconds }

/-- `ImprovedCheckpoint.complete_file` (lines 89-96). -/
def complete_file (c : CkptState) (fn : String) : CkptState :=
  { c with
    completedFiles :=
      if c.completedFiles.contains fn then c.completedFiles
      else c.completedFiles ++ [fn]
    currentFile := none
    currentFileProgress := 0 }

/-- `ImprovedCheckpoint.is_file_completed` (lines 98-100). -/
def is_file_completed (c : CkptState) (fn : String) : Bool :=
  c.completedFiles.contains fn

/-- `ImprovedCheckpoint.get_file_progress` (lines 102-110): `-1` when the
file is fully done. -/
def get_file_progress (c : CkptState) (fn : String) : Int :=
  if is_file_completed c fn then -1
  else if c.currentFile = some fn then (c.currentFileProgress : Int)
  else 0

/-- The on-disk state relevant to one source file: the checkpoint, the
temporary partial-embeddings file and the permanent output file (each
either absent or holding the given number of records). -/
structure FileDisk where
  ckpt : CkptState
  tempFile : Option Nat
  outFile : Option Nat
deriving DecidableEq

/-- Disk before any run: fresh checkpoint, no temporary file, no output. -/
def freshDisk : FileDisk :=
  { ckpt := freshCkpt, tempFile := none, outFile := none }

/-- The resume position (lines 193-205): `get_file_progress` aligned down
to a batch boundary, kept only when it is positive *and* the temporary
file exists on disk; otherwise the run silently starts fresh from `0`. -/
def resumeStart (d : FileDisk) (fn : String) (B : Nat) : Nat :=
  if 0 < ((get_file_progress d.ckpt fn).toNat / B) * B ∧ d.tempFile.isSome
  then ((get_file_progress d.ckpt fn).toNat / B) * B
  else 0

/-- Result of one invocation of `embed_file_resumable`: the persisted disk
states in order, the service calls as `(absolute start index, batch
length)`, and the outcome — `some d` when the function returns normally
leaving the disk in state `d`, `none` when it terminates by an uncaught
exception. -/
structure RunResult where
  trace : List FileDisk
  calls : List (Nat × Nat)
  outcome : Option FileDisk
deriving DecidableEq

/-- `embed_file_resumable(source_path, output_path, manager, checkpoint,
config, batch_size)` (lines 150-313) for a source file `fn` holding `N`
chunks, on disk state `d`, with batch size `B`:

1.  `get_file_progress` (line 187); if `-1` (file completed) return
    immediately — no disk writes, no service calls (lines 189-191).
2.  Compute the resume position (`resumeStart`, lines 193-205).
3.  `checkpoint.start_file(filename)` (line 208) saves the checkpoint —
    the first persisted state.
4.  If no chunks remain (`chunks[start_from:]` empty, lines 217-220),
    `complete_file` (saves the checkpoint) and return normally — reached
    only when `N - resumeStart = 0`.
5.  Otherwise the batch loop (lines 231-280) starts its first iteration:
    `manager.embed_batch` (line 241) issues one service call for the batch
    starting at `resumeStart`, of length `min B (N - resumeStart)`, and
    the vectors are stored into the in-memory map (lines 256-262); then
    the two-argument `serialize_object(embeddings_data, temp_path)` call
    on line 276 — *outside* the `try/except` that ends at line 272 —
    raises `TypeError` (`serialize_object` requires a third positional
    argument `log`), which propagates out of the function.  Nothing after
    the `start_file` save is ever persisted. -/
def embed_file_resumable (d : FileDisk) (fn : String) (N B : Nat) :
    RunResult :=
  if get_file_progress d.ckpt fn = -1 then ⟨[], [], some d⟩
  else if N - resumeStart d fn B = 0 then
    ⟨[⟨start_file d.ckpt fn, d.tempFile, d.outFile⟩,
      ⟨complete_file (start_file d.ckpt fn) fn, d.tempFile, d.outFile⟩],
      [],
      some ⟨complete_file (start_file d.ckpt fn) fn, d.tempFile, d.outFile⟩⟩
  else
    ⟨[⟨start_file d.ckpt fn, d.tempFile, d.outFile⟩],
      [(resumeStart d fn B, min B (N - resumeStart d fn B))],
      none⟩

/-- Disk states reachable for source `fn` (with `N` chunks, batch size
`B`) across any sequence of runs starting from a fresh disk: every run
either returns, is interrupted, or dies with the uncaught `TypeError`; in
each case the disk is left in some element of the run's trace (or
unchanged), and the next run starts from there. -/
inductive Reachable (fn : String) (N B : Nat) : FileDisk → Prop
  | fresh : Reachable fn N B freshDisk
  | step (d s : FileDisk) :
      Reachable fn N B d →
      s ∈ (embed_file_resumable d fn N B).trace →
      Reachable fn N B s

end Pipeline

namespace Chunking

theorem rfind2Down_zero (f : Nat → Char) (a b : Char) (p : Nat) :
    rfind2Down f a b p 0 = -1 := by
  rw [rfind2Down.eq_def]

theorem rfind2Down_succ (f : Nat → Char) (a b : Char) (p steps : Nat) :
    rfind2Down f a b p (steps + 1)
      = if f p == a && f (p + 1) == b then (p : Int)
        else match p with
          | 0 => -1
          | q + 1 => rfind2Down f a b q steps := by
  rw [rfind2Down.eq_def]

theorem c4ParaAt_of_ne {i : Nat} (h1 : i ≠ 5115) (h2 : i ≠ 6343) :
    c4ParaAt i = if i == 5116 || i == 6344 then ' ' else 'a' := by
  simp only [c4ParaAt]
  have hc : (i == 5115 || i == 6343) = false := by
    simp [h1, h2]
  rw [hc]
  simp

theorem c4_dot_miss {i : Nat} (h1 : i ≠ 5115) (h2 : i ≠ 6343) :
    (c4ParaAt i == '.' && c4ParaAt (i + 1) == ' ') = false := by
  rw [c4ParaAt_of_ne h1 h2]
  by_cases hi : (i == 5116 || i == 6344) = true <;> simp [hi]

theorem c4_never_bang (i : Nat) : (c4ParaAt i == '!') = false := by
  simp only [c4ParaAt]
  by_cases h1 : (i == 5115 || i == 6343) = true
  · simp [h1]
  · by_cases h2 : (i == 5116 || i == 6344) = true <;>
      simp [h1, h2]

theorem c4_never_quest (i : Nat) : (c4ParaAt i == '?') = false := by
  simp only [c4ParaAt]
  by_cases h1 : (i == 5115 || i == 6343) = true
  · simp [h1]
  · by_cases h2 : (i == 5116 || i == 6344) = true <;>
      simp [h1, h2]

/-- Scanning downward from a position at or above `6343` finds the sentence
boundary at `6343`, given enough fuel. -/
theorem rfind2Down_dot_high :
    ∀ (steps p : Nat), 6343 ≤ p → p - 6343 < steps →
      rfind2Down c4ParaAt '.' ' ' p steps = 6343 := by
  intro steps
  induction steps with
  | zero => intro p _ h2; omega
  | succ steps ih =>
    intro p h1 h2
    rw [rfind2Down_succ]
    by_cases hp : p = 6343
    · subst hp
      rw [if_pos (by decide)]
      norm_num
    · have hmiss : (c4ParaAt p == '.' && c4ParaAt (p + 1) == ' ') = false :=
        c4_dot_miss (by omega) hp
      rw [if_neg (by simp [hmiss])]
      obtain ⟨q, rfl⟩ : ∃ q, p = q + 1 := ⟨p - 1, by omega⟩
      exact ih q (by omega) (by omega)

/-- Scanning downward from a position in `[5115, 6343)` finds the sentence
boundary at `5115`, given enough fuel. -/
theorem rfind2Down_dot_mid :
    ∀ (steps p : Nat), 5115 ≤ p → p < 6343 → p - 5115 < steps →
      rfind2Down c4ParaAt '.' ' ' p steps = 5115 := by
  intro steps
  induction steps with
  | zero => intro p _ _ h3; omega
  | succ steps ih =>
    intro p h1 h2 h3
    rw [rfind2Down_succ]
    by_cases hp : p = 5115
    · subst hp
      rw [if_pos (by decide)]
      norm_num
    · have hmiss : (c4ParaAt p == '.' && c4ParaAt (p + 1) == ' ') = false :=
        c4_dot_miss hp (by omega)
      rw [if_neg (by simp [hmiss])]
      obtain ⟨q, rfl⟩ : ∃ q, p = q + 1 := ⟨p - 1, by omega⟩
      exact ih q (by omega) (by omega) (by omega)

/-- A downward scan for a first character that never occurs returns `-1`. -/
theorem rfind2Down_never (a b : Char) (hn : ∀ i, (c4ParaAt i == a) = false) :
    ∀ (steps p : Nat), rfind2Down c4ParaAt a b p steps = -1 := by
  intro steps
  induction steps with
  | zero => intro p; exact rfind2Down_zero _ _ _ _
  | succ steps ih =>
    intro p
    rw [rfind2Down_succ, if_neg (by simp [hn p])]
    cases p with
    | zero => rfl
    | succ q => exact ih q

end Chunking

namespace Book

theorem findParaSep_replicate_a (n : Nat) :
    findParaSep (List.replicate n 'a') = none := by
  induction n with
  | zero => rfl
  | succ n ih =>
    rw [List.replicate_succ, findParaSep]
    have hc : ('a' == '\n'
        && (List.takeWhile Chunking.pyIsSpace (List.replicate n 'a')).contains '\n')
        = false := by
      rw [show ('a' == '\n') = false from by decide, Bool.false_and]
    rw [if_neg (by rw [hc]; simp), ih]

theorem findPunctRunSep_replicate_a (n : Nat) :
    findPunctRunSep (List.replicate n 'a') = none := by
  induction n with
  | zero => rfl
  | succ n ih =>
    rw [List.replicate_succ, findPunctRunSep]
    have hc : (Chunking.isSentencePunct 'a'
        && Chunking.headIsSpace
          (List.dropWhile Chunking.isSentencePunct (List.replicate n 'a')))
        = false := by
      rw [show Chunking.isSentencePunct 'a' = false from by decide, Bool.false_and]
    rw [if_neg (by rw [hc]; simp), ih]

theorem pyStrip_replicate_a (n : Nat) :
    Chunking.pyStrip (List.replicate n 'a') = List.replicate n 'a' := by
  have h : ∀ k, (List.replicate k 'a').dropWhile Chunking.pyIsSpace
      = List.replicate k 'a' := by
    intro k
    cases k with
    | zero => rfl
    | succ k => rw [List.replicate_succ, List.dropWhile_cons, if_neg (by decide)]
  rw [Chunking.pyStrip, h, List.reverse_replicate, h, List.reverse_replicate]

theorem replicate_a_ne_nil (n : Nat) :
    List.replicate (n + 1) 'a' ≠ ([] : List Char) := by
  rw [List.replicate_succ]
  exact List.cons_ne_nil _ _

theorem paraPiecesAux_succ_replicate (fuel n : Nat) :
    paraPiecesAux (fuel + 1) (List.replicate n 'a') = [List.replicate n 'a'] := by
  simp only [paraPiecesAux, findParaSep_replicate_a]

theorem sentPiecesAux_succ_replicate (fuel n : Nat) :
    sentPiecesAux (fuel + 1) (List.replicate n 'a') = [List.replicate n 'a'] := by
  simp only [sentPiecesAux, findPunctRunSep_replicate_a]

theorem split_into_paragraphs_replicate (n : Nat) :
    split_into_paragraphs (List.replicate (n + 1) 'a')
      = [List.replicate (n + 1) 'a'] := by
  rw [split_into_paragraphs, List.length_replicate,
    paraPiecesAux_succ_replicate n (n + 1)]
  rw [List.map_cons, List.map_nil, pyStrip_replicate_a]
  rw [List.filter_cons]
  simp [replicate_a_ne_nil n]

theorem chunkLargePara_replicate (n : Nat) :
    chunkLargePara [List.replicate (n + 1) 'a'] [] [] 0
      = [List.replicate (n + 1) 'a'] := by
  rw [chunkLargePara, if_neg (by rw [pyStrip_replicate_a]; exact replicate_a_ne_nil n),
    if_neg (by simp)]
  rw [List.nil_append, chunkLargePara]
  simp

theorem chunkParas_replicate (n : Nat) (hn : MAX_CHARS < n + 1) :
    chunkParas [List.replicate (n + 1) 'a'] [] [] 0
      = [List.replicate (n + 1) 'a'] := by
  rw [chunkParas, if_pos (by rw [List.length_replicate]; exact hn)]
  rw [List.length_replicate, sentPiecesAux_succ_replicate n (n + 1)]
  rw [List.nil_append, if_pos rfl]
  simp only [chunkLargePara_replicate n, chunkParas]
  simp

end Book

namespace Embedding

theorem textChunksAux_flatten (B : Nat) (hB : 0 < B) :
    ∀ (fuel : Nat) (l : List String), l.length ≤ fuel →
      (textChunksAux B fuel l).flatten = l := by
  intro fuel
  induction fuel with
  | zero =>
    intro l hl
    cases l with
    | nil => rfl
    | cons c cs => simp at hl
  | succ fuel ih =>
    intro l hl
    cases l with
    | nil => rfl
    | cons c cs =>
      have hd : ((c :: cs).drop B).length ≤ fuel := by
        simp only [List.length_drop, List.length_cons]
        simp only [List.length_cons] at hl
        omega
      simp only [textChunksAux, List.flatten_cons, ih _ hd]
      exact List.take_append_drop B (c :: cs)

theorem textChunks_flatten (B : Nat) (hB : 0 < B) (l : List String) :
    (textChunks B l).flatten = l :=
  textChunksAux_flatten B hB l.length l le_rfl

theorem embedBatch_foldl_embeddings (svc : List String → List V × Nat) :
    ∀ (batches : List (List String)) (e0 : List V) (t0 i0 : Nat) (a0 : Option ℚ),
      (batches.foldl (embedBatchStep svc) (e0, t0, i0, a0)).1
        = e0 ++ batches.flatMap (fun b => (svc b).1) := by
  intro batches
  induction batches with
  | nil => intro e0 t0 i0 a0; simp
  | cons b rest ih =>
    intro e0 t0 i0 a0
    rw [List.foldl_cons, List.flatMap_cons]
    rw [ih]
    simp [embedBatchStep, List.append_assoc]

theorem embedBatch_foldl_some (svc : List String → List V × Nat) :
    ∀ (batches : List (List String)) (st : List V × Nat × Nat × Option ℚ),
      st.2.2.2.isSome → (batches.foldl (embedBatchStep svc) st).2.2.2.isSome := by
  intro batches
  induction batches with
  | nil => intro st h; exact h
  | cons b rest ih =>
    intro st _
    rw [List.foldl_cons]
    exact ih _ (by simp [embedBatchStep])

theorem embedPar_foldl_embeddings (svc : List String → List V × Nat) :
    ∀ (batches : List (List String)) (e0 : List V) (m0 : Nat),
      (batches.foldl (embedParStep svc) (e0, m0)).1
        = e0 ++ batches.flatMap (fun b => (svc b).1) := by
  intro batches
  induction batches with
  | nil => intro e0 m0; simp
  | cons b rest ih =>
    intro e0 m0
    rw [List.foldl_cons, List.flatMap_cons]
    rw [ih]
    simp [embedParStep, List.append_assoc]

theorem flatMap_of_svc_map (svc : List String → List V × Nat) (f : String → V)
    (hsvc : ∀ b, (svc b).1 = b.map f) (batches : List (List String)) :
    batches.flatMap (fun b => (svc b).1) = batches.flatten.map f := by
  induction batches with
  | nil => rfl
  | cons b rest ih =>
    rw [List.flatMap_cons, List.flatten_cons, List.map_append, hsvc, ih]

end Embedding


/-- C6 (counterexample to the claim as stated).  For the empty list of input
texts, `embed_batch` does not return at all: the loop body never runs, so
the `return` statement reads the unassigned local `avg_tokens` and Python
raises `UnboundLocalError` (modelled as `none`) — it does not return `0`
embedding vectors. -/
theorem c6_embed_batch_empty_raises :
    Embedding.embed_batch Embedding.svcConst ([] : List String) 1 = none := by
  rfl

/-- C6 (amended).  For every *non-empty* list of input texts and every batch
size `B ≥ 1`, and an embedding service that returns one vector per input
text in order (`hsvc`), `embed_batch` returns the vectors of all texts in
input order (the in-order concatenation of the per-batch service results);
`embed_batch_parallel` satisfies the same property for every list including
the empty one.  (On the empty list the sequential `embed_batch` instead
raises `UnboundLocalError`, see the counterexample.) -/
theorem c6_embed_batch_order_preservation {V : Type}
    (svc : List String → List V × Nat) (f : String → V) (texts : List String)
    (B : Nat) (hB : 0 < B) (hsvc : ∀ b, (svc b).1 = b.map f) :
    (texts ≠ [] →
        (Embedding.embed_batch svc texts B).map Embedding.BatchResult.embeddings
          = some (texts.map f))
      ∧ (Embedding.embed_batch_parallel svc texts B).embeddings = texts.map f := by
  have hflat := Embedding.textChunks_flatten B hB texts
  have hemb : (Embedding.textChunks B texts).flatMap (fun b => (svc b).1)
      = texts.map f := by
    rw [Embedding.flatMap_of_svc_map svc f hsvc, hflat]
  constructor
  · intro hne
    rw [Embedding.embed_batch]
    rcases hr : (Embedding.textChunks B texts).foldl (Embedding.embedBatchStep svc)
        ([], 0, 0, none) with ⟨allE, tt, ti, oa⟩
    have hallE : allE = texts.map f := by
      have hfold := Embedding.embedBatch_foldl_embeddings svc
        (Embedding.textChunks B texts) [] 0 0 none
      rw [hr] at hfold
      simpa [hemb] using hfold
    cases oa with
    | none =>
      exfalso
      have hbne : Embedding.textChunks B texts ≠ [] := by
        intro h
        rw [h] at hflat
        exact hne (by simpa using hflat.symm)
      obtain ⟨b, rest, hb⟩ := List.exists_cons_of_ne_nil hbne
      have hsome := Embedding.embedBatch_foldl_some svc rest
        (Embedding.embedBatchStep svc ([], 0, 0, none) b)
        (by simp [Embedding.embedBatchStep])
      rw [hb, List.foldl_cons] at hr
      rw [hr] at hsome
      simp at hsome
    | some a =>
      simp [hallE]
  · rw [Embedding.embed_batch_parallel]
    have hfold := Embedding.embedPar_foldl_embeddings svc
      (Embedding.textChunks B texts) [] 0
    simp [hfold, hemb]

/-- Witness for the amended C6 at a concrete service and text list. -/
theorem c6_embed_batch_order_preservation_witness :
    0 < 1
      ∧ ((["x", "y"] : List String) ≠ [] →
          (Embedding.embed_batch Embedding.svcConst ["x", "y"] 1).map
              Embedding.BatchResult.embeddings
            = some ((["x", "y"] : List String).map (fun _ => ())))
      ∧ (Embedding.embed_batch_parallel Embedding.svcConst ["x", "y"] 1).embeddings
          = (["x", "y"] : List String).map (fun _ => ()) :=
  ⟨by decide,
    c6_embed_batch_order_preservation Embedding.svcConst (fun _ => ()) ["x", "y"] 1
      (by decide) (fun b => rfl)⟩

/-- C7.  The `max_tokens` value returned by `embed_batch` is *not* the
maximum per-call `prompt_eval_count`: the local `max_tokens` is initialised
to `-1` on line 164 and never updated, so the function always returns `-1`.
Here the service reports `prompt_eval_count = 7` for the single call, yet
`embed_batch` returns `max_tokens = -1 ≠ 7`. -/
theorem c7_embed_batch_max_tokens_stuck :
    (Embedding.embed_batch Embedding.svcConst ["t"] 100).map
        Embedding.BatchResult.max_tokens = some (-1)
      ∧ (Embedding.embed_batch Embedding.svcConst ["t"] 100).map
        Embedding.BatchResult.embeddings = some [()]
      ∧ ((-1 : Int) ≠ 7) := by
  refine ⟨rfl, rfl, by decide⟩

/-- C1.  The chunk size invariant does *not* hold for
`BookChunker.chunk_chapter`: a chapter whose content is a single
8001-character paragraph with no sentence boundary is emitted as one chunk
of 8001 characters, exceeding the chunker's configured maximum of
`MAX_CHARS = 8000` characters.  (`chunk_chapter` never hard-splits a
sentence that alone exceeds `MAX_CHARS`.) -/
theorem c1_chunk_chapter_oversize :
    Book.chunk_chapter_texts (List.replicate 8001 'a') = [List.replicate 8001 'a']
      ∧ (List.replicate 8001 'a').length = 8001
      ∧ Book.MAX_CHARS < 8001 := by
  refine ⟨?_, by rw [List.length_replicate], by norm_num [Book.MAX_CHARS]⟩
  rw [Book.chunk_chapter_texts, if_neg (Book.replicate_a_ne_nil 8000)]
  rw [Book.split_into_paragraphs_replicate 8000]
  rw [if_neg (List.cons_ne_nil _ _)]
  exact Book.chunkParas_replicate 8000 (by norm_num [Book.MAX_CHARS])

/-- C4.  The sliding-window splitter `split_paragraph_into_chunks` does
*not* make strict forward progress on every input: on the paragraph
`(c4ParaAt, c4ParaLen)` (which is longer than `TARGET_CHARS`), the first
iteration moves `start` from `0` to `5116`, and the iteration at
`start = 5116` computes the next `start` as `5116` again — not strictly
greater — so the loop repeats this state forever and never terminates.
(The progress guard on line 263 compares the candidate start against
`len(chunks[-1]) - OVERLAP_CHARS` instead of the previous start, and fails
to fire here.) -/
theorem c4_split_paragraph_nonprogress :
    Chunking.TARGET_CHARS < Chunking.c4ParaLen
      ∧ Chunking.split_paragraph_step Chunking.c4ParaAt Chunking.c4ParaLen 0 = some 5116
      ∧ Chunking.split_paragraph_step Chunking.c4ParaAt Chunking.c4ParaLen 5116 = some 5116
      ∧ ¬ ((5116 : Int) < 5116) := by
  refine ⟨by decide, ?_, ?_, by decide⟩
  · have hdot : Chunking.pyRfind2 Chunking.c4ParaAt '.' ' ' 0 6344 = 5115 := by
      rw [Chunking.pyRfind2, if_pos (by norm_num)]
      norm_num
      exact Chunking.rfind2Down_dot_mid 6343 6342 (by norm_num) (by norm_num) (by norm_num)
    have hbang : Chunking.pyRfind2 Chunking.c4ParaAt '!' ' ' 0 6344 = -1 := by
      rw [Chunking.pyRfind2, if_pos (by norm_num)]
      exact Chunking.rfind2Down_never '!' ' ' Chunking.c4_never_bang _ _
    have hquest : Chunking.pyRfind2 Chunking.c4ParaAt '?' ' ' 0 6344 = -1 := by
      rw [Chunking.pyRfind2, if_pos (by norm_num)]
      exact Chunking.rfind2Down_never '?' ' ' Chunking.c4_never_quest _ _
    have hstrip : Chunking.stripLen Chunking.c4ParaAt 0 5116 = 5116 := by decide
    simp only [Chunking.split_paragraph_step, Chunking.c4ParaLen, Chunking.TARGET_CHARS,
      Chunking.MAX_CHARS, Chunking.OVERLAP_CHARS]
    norm_num
    rw [hdot, hbang, hquest]
    norm_num [hstrip]
    have ht : Int.toNat 5115 + 1 = 5116 := by decide
    rw [ht, hstrip]
  · have hdot : Chunking.pyRfind2 Chunking.c4ParaAt '.' ' ' 5116 11261 = 6343 := by
      rw [Chunking.pyRfind2, if_pos (by norm_num)]
      norm_num
      exact Chunking.rfind2Down_dot_high 6144 11259 (by norm_num) (by norm_num)
    have hbang : Chunking.pyRfind2 Chunking.c4ParaAt '!' ' ' 5116 11261 = -1 := by
      rw [Chunking.pyRfind2, if_pos (by norm_num)]
      exact Chunking.rfind2Down_never '!' ' ' Chunking.c4_never_bang _ _
    have hquest : Chunking.pyRfind2 Chunking.c4ParaAt '?' ' ' 5116 11261 = -1 := by
      rw [Chunking.pyRfind2, if_pos (by norm_num)]
      exact Chunking.rfind2Down_never '?' ' ' Chunking.c4_never_quest _ _
    have hstrip : Chunking.stripLen Chunking.c4ParaAt 5116 6344 = 1227 := by decide
    simp only [Chunking.split_paragraph_step, Chunking.c4ParaLen, Chunking.TARGET_CHARS,
      Chunking.MAX_CHARS, Chunking.OVERLAP_CHARS]
    norm_num
    rw [hdot, hbang, hquest]
    norm_num [hstrip]
    have ht : Int.toNat 6343 + 1 = 6344 := by decide
    rw [ht, hstrip]
    norm_num

/-- C2.  The claim's per-batch sequence "persist the partial-results map
to the temporary file, then update the checkpoint" never executes:
whenever an invocation of `embed_file_resumable` issues at least one
service call (i.e. enters the batch loop), it terminates by the uncaught
`TypeError` from the two-argument `serialize_object` call on line 276
(`outcome = none`), and its only persisted state is the `start_file`
checkpoint save — the temporary and output files are exactly as before
the run. -/
theorem c2_temp_write_always_raises (d : Pipeline.FileDisk) (fn : String)
    (N B : Nat) (h : (Pipeline.embed_file_resumable d fn N B).calls ≠ []) :
    (Pipeline.embed_file_resumable d fn N B).outcome = none
    ∧ (Pipeline.embed_file_resumable d fn N B).trace.map
        Pipeline.FileDisk.tempFile = [d.tempFile]
    ∧ (Pipeline.embed_file_resumable d fn N B).trace.map
        Pipeline.FileDisk.outFile = [d.outFile] := by
  rw [Pipeline.embed_file_resumable] at h ⊢
  by_cases h1 : Pipeline.get_file_progress d.ckpt fn = -1
  · rw [if_pos h1] at h
    exact absurd rfl h
  · rw [if_neg h1] at h ⊢
    by_cases h2 : N - Pipeline.resumeStart d fn B = 0
    · rw [if_pos h2] at h
      exact absurd rfl h
    · rw [if_neg h2]
      exact ⟨rfl, rfl, rfl⟩

/-- Witness for C2: the fresh run on a one-chunk file issues one service
call, then raises without writing the temporary or output file. -/
theorem c2_temp_write_always_raises_witness :
    (Pipeline.embed_file_resumable Pipeline.freshDisk "f" 1 1).calls ≠ []
    ∧ ((Pipeline.embed_file_resumable Pipeline.freshDisk "f" 1 1).outcome = none
      ∧ (Pipeline.embed_file_resumable Pipeline.freshDisk "f" 1 1).trace.map
          Pipeline.FileDisk.tempFile = [Pipeline.freshDisk.tempFile]
      ∧ (Pipeline.embed_file_resumable Pipeline.freshDisk "f" 1 1).trace.map
          Pipeline.FileDisk.outFile = [Pipeline.freshDisk.outFile]) :=
  ⟨by decide, c2_temp_write_always_raises Pipeline.freshDisk "f" 1 1 (by decide)⟩

/-- C3.  No progress value is ever persisted at a batch boundary: across
every sequence of runs from a fresh disk, every reachable checkpoint state
has `current_file_progress = 0` — `update_progress` (the field's only
batch-boundary writer, called only from line 280) is unreachable behind
the `TypeError` on line 276, and `start_file`/`complete_file` only keep or
reset the field. -/
theorem c3_progress_never_persisted (fn : String) (N B : Nat)
    (s : Pipeline.FileDisk) (h : Pipeline.Reachable fn N B s) :
    s.ckpt.currentFileProgress = 0 := by
  induction h with
  | fresh => rfl
  | step d s hd hstep ih =>
    rw [Pipeline.embed_file_resumable] at hstep
    by_cases h1 : Pipeline.get_file_progress d.ckpt fn = -1
    · rw [if_pos h1] at hstep
      simp at hstep
    · rw [if_neg h1] at hstep
      by_cases h2 : N - Pipeline.resumeStart d fn B = 0
      · rw [if_pos h2] at hstep
        simp only [List.mem_cons, List.not_mem_nil, or_false] at hstep
        rcases hstep with rfl | rfl
        · by_cases hc : d.ckpt.currentFile = some fn
          · simpa [Pipeline.start_file, hc] using ih
          · simp [Pipeline.start_file, hc]
        · simp [Pipeline.complete_file]
      · rw [if_neg h2] at hstep
        simp only [List.mem_cons, List.not_mem_nil, or_false] at hstep
        rcases hstep with rfl
        by_cases hc : d.ckpt.currentFile = some fn
        · simpa [Pipeline.start_file, hc] using ih
        · simp [Pipeline.start_file, hc]

/-- Witness for C3 at the one persisted state of the fresh run. -/
theorem c3_progress_never_persisted_witness :
    (⟨⟨some "f", 0, [], 0, 0⟩, none, none⟩ :
        Pipeline.FileDisk).ckpt.currentFileProgress = 0 :=
  c3_progress_never_persisted "f" 3 2 _
    (Pipeline.Reachable.step Pipeline.freshDisk _
      Pipeline.Reachable.fresh (by decide))

/-- C5.  Calling `embed_file_resumable` on a source file already in the
checkpoint's `completed_files` list returns normally and immediately
(lines 189-191, before any write, any service call, and before the broken
`serialize_object` is ever reached): no service calls, no persisted
states, and the entire disk (checkpoint, temporary file, output file)
unchanged. -/
theorem c5_completed_file_noop (d : Pipeline.FileDisk) (fn : String)
    (N B : Nat) (h : Pipeline.is_file_completed d.ckpt fn = true) :
    Pipeline.embed_file_resumable d fn N B = ⟨[], [], some d⟩ := by
  rw [Pipeline.embed_file_resumable, if_pos]
  rw [Pipeline.get_file_progress, if_pos h]

/-- Witness for C5 at a concrete completed file. -/
theorem c5_completed_file_noop_witness :
    Pipeline.is_file_completed
        (⟨⟨none, 0, ["f"], 5, 7⟩, none, some 5⟩ : Pipeline.FileDisk).ckpt
        "f" = true
    ∧ Pipeline.embed_file_resumable
        (⟨⟨none, 0, ["f"], 5, 7⟩, none, some 5⟩ : Pipeline.FileDisk) "f" 3 2
      = ⟨[], [], some ⟨⟨none, 0, ["f"], 5, 7⟩, none, some 5⟩⟩ :=
  ⟨by decide, c5_completed_file_noop _ "f" 3 2 (by decide)⟩

/-- C8 (refuting the claim as stated).  The totals are not running totals:
they are never updated at all.  The fresh run on a two-chunk file embeds
both chunks through one service call, yet every state it persists still
shows `total_chunks_embedded = 0` and `total_time_seconds = 0`, because
`update_progress` — the only writer of the two fields — is unreachable
behind the `TypeError` on line 276 and the run dies (`outcome = none`).
And `update_progress` itself, were it reachable, *overwrites* instead of
accumulating: applying it with `3` chunks / `2` seconds and then `1`
chunk / `1` second leaves `(1, 1)`, not the cumulative `(4, 3)`. -/
theorem c8_totals_never_updated :
    ((Pipeline.embed_file_resumable Pipeline.freshDisk "f" 2 2).calls
        = [(0, 2)]
      ∧ (Pipeline.embed_file_resumable Pipeline.freshDisk "f" 2 2).outcome
        = none
      ∧ (Pipeline.embed_file_resumable Pipeline.freshDisk "f" 2 2).trace.map
          (fun s => (s.ckpt.totalChunksEmbedded, s.ckpt.totalTimeSeconds))
        = [(0, 0)])
    ∧ (Pipeline.update_progress (Pipeline.update_progress Pipeline.freshCkpt
          3 2) 1 1).totalChunksEmbedded = 1
    ∧ (Pipeline.update_progress (Pipeline.update_progress Pipeline.freshCkpt
          3 2) 1 1).totalTimeSeconds = 1 := by
  decide

/-- C10 (refuting the claim as stated).  With checkpoint progress `3` for
file `"f"` (3 chunks, batch size 2) and the temporary file absent, the run
does silently restart from position `0` — its one service call covers
`[0, 2)`, not the aligned resume position `2` — but it then *fails*: the
two-argument `serialize_object` call on line 276 raises `TypeError`
(`outcome = none`) before anything is written, so the output file is never
created (line 295 unreachable) and the file is never marked completed
(line 301 unreachable); the output never contains one record per chunk. -/
theorem c10_missing_temp_restart_raises :
    (Pipeline.embed_file_resumable
        ⟨⟨some "f", 3, [], 3, 2⟩, none, none⟩ "f" 3 2).calls = [(0, 2)]
    ∧ (Pipeline.embed_file_resumable
        ⟨⟨some "f", 3, [], 3, 2⟩, none, none⟩ "f" 3 2).outcome = none
    ∧ (Pipeline.embed_file_resumable
        ⟨⟨some "f", 3, [], 3, 2⟩, none, none⟩ "f" 3 2).trace.map
        Pipeline.FileDisk.outFile = [none]
    ∧ (Pipeline.embed_file_resumable
        ⟨⟨some "f", 3, [], 3, 2⟩, none, none⟩ "f" 3 2).trace.map
        (fun s => Pipeline.is_file_completed s.ckpt "f") = [false] := by
  decide
